import Mathlib

/-!
Shallow embedding of the editor menu command factory
(`MenuCommandFactory`, `commandMapping` and the four command builders)
from the repository's rich-text-editor adapter, together with the
pieces of the ProseMirror interface it touches (schema mark/node
tables, toggle/set-block/wrap commands) modelled as explicit data.
-/

/-- A mark handle obtained from the schema's mark table; the factory only
ever obtains it by name lookup and hands it to a command constructor, so it
is represented by its name. -/
structure MarkType where
  name : String
deriving DecidableEq, Repr

/-- A node-type handle obtained from the schema's node table, represented by
its name. -/
structure NodeType where
  name : String
deriving DecidableEq, Repr

/-- The editor schema as the factory sees it: the set of mark names present
in `schema.marks` and the set of node names present in `schema.nodes`. -/
structure Schema where
  marks : List String
  nodes : List String
deriving DecidableEq, Repr

/-- Models the record access `schema.marks[markName]`: `undefined` when the
name is absent, the mark handle when present. -/
def Schema.getMark (s : Schema) (n : String) : Option MarkType :=
  if n ∈ s.marks then some ⟨n⟩ else none

/-- Models the record access `schema.nodes[nodeType]`. -/
def Schema.getNode (s : Schema) (n : String) : Option NodeType :=
  if n ∈ s.nodes then some ⟨n⟩ else none

/-- Attributes bound into a link toggle command: `{ href: url }`. -/
structure LinkAttrs where
  href : String
deriving DecidableEq, Repr

/-- Attributes bound into a heading block command: `{ level: level }`. -/
structure HeadingAttrs where
  level : Nat
deriving DecidableEq, Repr

/-- The action descriptor returned to the caller: which ProseMirror command
constructor was invoked, on which schema handle, with which attributes. -/
inductive Command where
  | toggleMark (mark : MarkType) (attrs : Option LinkAttrs)
  | setBlockType (node : NodeType) (attrs : Option HeadingAttrs)
  | wrapIn (node : NodeType)
  | wrapInList (node : NodeType)
deriving DecidableEq, Repr

/-- The `href` attribute carried by a descriptor, if any. -/
def Command.hrefAttr : Command → Option String
  | .toggleMark _ (some a) => some a.href
  | _ => none

/-- The `level` attribute carried by a descriptor, if any. -/
def Command.levelAttr : Command → Option Nat
  | .setBlockType _ (some a) => some a.level
  | _ => none

/-- A thrown JavaScript `Error`: its class name (`new Error` always yields
class `"Error"`) and its message. -/
structure JsError where
  name : String
  message : String
deriving DecidableEq, Repr

/-- Models `new Error(msg)`. -/
def jsError (msg : String) : JsError := ⟨"Error", msg⟩

/-- Message template of `createToggleMarkCommand`'s throw. -/
def markNotFoundMsg (markName : String) : String :=
  "Mark \"" ++ markName ++ "\" not found in schema"

/-- Message template of `createSetNodeTypeCommand`'s and
`createWrapInCommand`'s throw. -/
def nodeNotFoundMsg (nodeType : String) : String :=
  "Node type \"" ++ nodeType ++ "\" not found in schema"

/-- Message template of `createListCommand`'s throw. -/
def listNotFoundMsg (listType : String) : String :=
  "List type \"" ++ listType ++ "\" not found in schema"

/-- Message template of `getCommand`'s unsupported-menu-type throw. -/
def menuTypeNotSupportedMsg (mark : String) : String :=
  "The Menu Type \"" ++ mark ++ "\" is not supported"

/-- Message template of `getCommand`'s missing-dispatch-entry throw. -/
def markNotSupportedMsg (mark : String) : String :=
  "The Mark \"" ++ mark ++ "\" is not supported"

namespace EditorMenuTypes

/-- Modelled from the spec: the string enum `EditorMenuTypes` lives in
`./types`, a file of this repository that is not among the provided
sources. The spec fixes the closed set of action identifiers (Strong,
Italic, Underline, HeaderLevel1..3, Blockquote, OrderedList, BulletList,
Link); the factory's dispatch-table keys and mark-table lookups fix their
string values. -/
def Strong : String := "strong"

/-- Modelled from the spec: see `EditorMenuTypes.Strong`. -/
def Italic : String := "em"

/-- Modelled from the spec: see `EditorMenuTypes.Strong`. -/
def Underline : String := "underline"

/-- Modelled from the spec: see `EditorMenuTypes.Strong`. -/
def HeaderLevel1 : String := "headerlevel1"

/-- Modelled from the spec: see `EditorMenuTypes.Strong`. -/
def HeaderLevel2 : String := "headerlevel2"

/-- Modelled from the spec: see `EditorMenuTypes.Strong`. -/
def HeaderLevel3 : String := "headerlevel3"

/-- Modelled from the spec: see `EditorMenuTypes.Strong`. -/
def Blockquote : String := "blockquote"

/-- Modelled from the spec: see `EditorMenuTypes.Strong`. -/
def OrderedList : String := "ordered_list"

/-- Modelled from the spec: see `EditorMenuTypes.Strong`. -/
def BulletList : String := "bullet_list"

/-- Modelled from the spec: see `EditorMenuTypes.Strong`. -/
def Link : String := "link"

/-- Modelled from the spec: models `Object.values(EditorMenuTypes)`, the
full value set of the enum. -/
def values : List String :=
  [Strong, Italic, Underline, HeaderLevel1, HeaderLevel2, HeaderLevel3,
   Blockquote, OrderedList, BulletList, Link]

end EditorMenuTypes

namespace levelMapping

/-- Modelled from the spec: `levelMapping` also lives in `./types`; the
spec states the heading actions bind numeric levels 1, 2 and 3. -/
def one : Nat := 1

/-- Modelled from the spec: see `levelMapping.one`. -/
def two : Nat := 2

/-- Modelled from the spec: see `levelMapping.one`. -/
def three : Nat := 3

end levelMapping

/-- JavaScript truthiness of the optional `url` parameter: `undefined` and
the empty string are falsy. -/
def strTruthy : Option String → Bool
  | none => false
  | some s => s != ""

/-- JavaScript truthiness of the optional `level` parameter: `undefined`
and `0` are falsy. -/
def natTruthy : Option Nat → Bool
  | none => false
  | some n => n != 0

/-- `createToggleMarkCommand(schema, markName, url?)`. -/
def createToggleMarkCommand (schema : Schema) (markName : String)
    (url : Option String) : Except JsError Command :=
  match schema.getMark markName with
  | none => .error (jsError (markNotFoundMsg markName))
  | some markType =>
    if markName == EditorMenuTypes.Link && strTruthy url then
      .ok (.toggleMark markType (some ⟨url.getD ""⟩))
    else
      .ok (.toggleMark markType none)

/-- `createSetNodeTypeCommand(schema, nodeType, level?)`. -/
def createSetNodeTypeCommand (schema : Schema) (nodeType : String)
    (level : Option Nat) : Except JsError Command :=
  match schema.getNode nodeType with
  | none => .error (jsError (nodeNotFoundMsg nodeType))
  | some type =>
    if nodeType == "heading" && natTruthy level then
      .ok (.setBlockType type (some ⟨level.getD 0⟩))
    else
      .ok (.setBlockType type none)

/-- `createWrapInCommand(schema, nodeType)`. -/
def createWrapInCommand (schema : Schema) (nodeType : String) :
    Except JsError Command :=
  match schema.getNode nodeType with
  | none => .error (jsError (nodeNotFoundMsg nodeType))
  | some type => .ok (.wrapIn type)

/-- `createListCommand(schema, listType)`. -/
def createListCommand (schema : Schema) (listType : String) :
    Except JsError Command :=
  match schema.getNode listType with
  | none => .error (jsError (listNotFoundMsg listType))
  | some type => .ok (.wrapInList type)

/-- The common signature of the dispatch-table entries:
`(schema, mark, url?) => Command`. -/
def CommandFunction : Type :=
  Schema → String → Option String → Except JsError Command

/-- The dispatch table `commandMapping`, key for key from the source object
literal. -/
def commandMapping : List (String × CommandFunction) :=
  [("strong", fun schema mark url => createToggleMarkCommand schema mark url),
   ("em", fun schema mark url => createToggleMarkCommand schema mark url),
   ("underline",
    fun schema mark url => createToggleMarkCommand schema mark url),
   ("headerlevel1",
    fun schema _ _ =>
      createSetNodeTypeCommand schema "heading" (some levelMapping.one)),
   ("headerlevel2",
    fun schema _ _ =>
      createSetNodeTypeCommand schema "heading" (some levelMapping.two)),
   ("headerlevel3",
    fun schema _ _ =>
      createSetNodeTypeCommand schema "heading" (some levelMapping.three)),
   ("blockquote", fun schema mark _ => createWrapInCommand schema mark),
   ("ordered_list", fun schema mark _ => createListCommand schema mark),
   ("bullet_list", fun schema mark _ => createListCommand schema mark),
   ("link", fun schema mark url => createToggleMarkCommand schema mark url)]

/-- The factory class: its only state is the schema stored by the
constructor. -/
structure MenuCommandFactory where
  schema : Schema
deriving DecidableEq, Repr

/-- `MenuCommandFactory.getCommand(mark, url?)`. -/
def MenuCommandFactory.getCommand (self : MenuCommandFactory) (mark : String)
    (url : Option String) : Except JsError Command :=
  if !(EditorMenuTypes.values.contains mark) then
    .error (jsError (menuTypeNotSupportedMsg mark))
  else
    match commandMapping.lookup mark with
    | none => .error (jsError (markNotSupportedMsg mark))
    | some commandFunc => commandFunc self.schema mark url

/-- `MenuCommandFactory.buildKeymap()`: a JS object literal whose five
properties are evaluated in source order; the first throw propagates and no
object is produced. -/
def MenuCommandFactory.buildKeymap (self : MenuCommandFactory) :
    Except JsError (List (String × Command)) := do
  let b ← self.getCommand EditorMenuTypes.Strong none
  let i ← self.getCommand EditorMenuTypes.Italic none
  let h1 ← self.getCommand EditorMenuTypes.HeaderLevel1 none
  let h2 ← self.getCommand EditorMenuTypes.HeaderLevel2 none
  let h3 ← self.getCommand EditorMenuTypes.HeaderLevel3 none
  pure [("Mod-B", b), ("Mod-I", i), ("Mod-Shift-1", h1), ("Mod-Shift-2", h2),
        ("Mod-Shift-3", h3)]

/-- `getCommand` with the receiver threaded explicitly, as a state-passing
rendering of the method call: the source body reads `this.schema` and
assigns nothing, so the outgoing receiver is the incoming one. -/
def MenuCommandFactory.getCommandSt (self : MenuCommandFactory)
    (mark : String) (url : Option String) :
    Except JsError Command × MenuCommandFactory :=
  (self.getCommand mark url, self)

/-- A schema whose mark and node tables contain every primitive the
dispatch table references. -/
def fullSchema : Schema :=
  { marks := ["strong", "em", "underline", "link"],
    nodes := ["heading", "blockquote", "ordered_list", "bullet_list"] }

/-- A schema with empty mark and node tables. -/
def emptySchema : Schema := { marks := [], nodes := [] }

/-- The three fault kinds of the error-handling design: unsupported action
identifier, missing dispatch-table entry, required primitive absent from
the capability table. -/
inductive FaultKind where
  | unsupportedAction
  | missingDispatch
  | capabilityMissing
deriving DecidableEq, Repr

/-- A caller-side decision function that recovers the fault kind from a
thrown error value alone, using the fixed head of its message (the five
message templates of the source have pairwise distinct heads). Used to
state that the fault kinds are mutually distinguishable. -/
def classifyFault (e : JsError) : Option FaultKind :=
  match e.message.data with
  | 'T' :: 'h' :: 'e' :: ' ' :: 'M' :: 'e' :: _ => some .unsupportedAction
  | 'T' :: 'h' :: 'e' :: ' ' :: 'M' :: 'a' :: _ => some .missingDispatch
  | 'M' :: 'a' :: 'r' :: 'k' :: ' ' :: _ => some .capabilityMissing
  | 'N' :: 'o' :: 'd' :: 'e' :: ' ' :: _ => some .capabilityMissing
  | 'L' :: 'i' :: 's' :: 't' :: ' ' :: _ => some .capabilityMissing
  | _ => none

lemma classify_menuTypeNotSupported (m : String) :
    classifyFault (jsError (menuTypeNotSupportedMsg m)) =
      some .unsupportedAction := by
  obtain ⟨md⟩ := m
  rfl

lemma classify_markNotSupported (m : String) :
    classifyFault (jsError (markNotSupportedMsg m)) =
      some .missingDispatch := by
  obtain ⟨md⟩ := m
  rfl

lemma classify_markNotFound (m : String) :
    classifyFault (jsError (markNotFoundMsg m)) =
      some .capabilityMissing := by
  obtain ⟨md⟩ := m
  rfl

lemma classify_nodeNotFound (m : String) :
    classifyFault (jsError (nodeNotFoundMsg m)) =
      some .capabilityMissing := by
  obtain ⟨md⟩ := m
  rfl

lemma classify_listNotFound (m : String) :
    classifyFault (jsError (listNotFoundMsg m)) =
      some .capabilityMissing := by
  obtain ⟨md⟩ := m
  rfl

lemma createToggleMarkCommand_mem (s : Schema) (name : String)
    (h : name ∈ s.marks) (url : Option String) :
    createToggleMarkCommand s name url =
      if name == EditorMenuTypes.Link && strTruthy url then
        .ok (.toggleMark ⟨name⟩ (some ⟨url.getD ""⟩))
      else
        .ok (.toggleMark ⟨name⟩ none) := by
  unfold createToggleMarkCommand Schema.getMark
  rw [if_pos h]

lemma createToggleMarkCommand_notMem (s : Schema) (name : String)
    (h : name ∉ s.marks) (url : Option String) :
    createToggleMarkCommand s name url =
      .error (jsError (markNotFoundMsg name)) := by
  unfold createToggleMarkCommand Schema.getMark
  rw [if_neg h]

lemma createSetNodeTypeCommand_mem (s : Schema) (name : String)
    (h : name ∈ s.nodes) (lvl : Option Nat) :
    createSetNodeTypeCommand s name lvl =
      if name == "heading" && natTruthy lvl then
        .ok (.setBlockType ⟨name⟩ (some ⟨lvl.getD 0⟩))
      else
        .ok (.setBlockType ⟨name⟩ none) := by
  unfold createSetNodeTypeCommand Schema.getNode
  rw [if_pos h]

lemma createSetNodeTypeCommand_notMem (s : Schema) (name : String)
    (h : name ∉ s.nodes) (lvl : Option Nat) :
    createSetNodeTypeCommand s name lvl =
      .error (jsError (nodeNotFoundMsg name)) := by
  unfold createSetNodeTypeCommand Schema.getNode
  rw [if_neg h]

lemma createWrapInCommand_mem (s : Schema) (name : String)
    (h : name ∈ s.nodes) :
    createWrapInCommand s name = .ok (.wrapIn ⟨name⟩) := by
  unfold createWrapInCommand Schema.getNode
  rw [if_pos h]

lemma createWrapInCommand_notMem (s : Schema) (name : String)
    (h : name ∉ s.nodes) :
    createWrapInCommand s name = .error (jsError (nodeNotFoundMsg name)) := by
  unfold createWrapInCommand Schema.getNode
  rw [if_neg h]

lemma createListCommand_mem (s : Schema) (name : String)
    (h : name ∈ s.nodes) :
    createListCommand s name = .ok (.wrapInList ⟨name⟩) := by
  unfold createListCommand Schema.getNode
  rw [if_pos h]

lemma createListCommand_notMem (s : Schema) (name : String)
    (h : name ∉ s.nodes) :
    createListCommand s name = .error (jsError (listNotFoundMsg name)) := by
  unfold createListCommand Schema.getNode
  rw [if_neg h]

lemma createToggleMarkCommand_error (s : Schema) (name : String)
    (url : Option String) (e : JsError)
    (h : createToggleMarkCommand s name url = .error e) :
    e = jsError (markNotFoundMsg name) ∧ name ∉ s.marks := by
  by_cases hmem : name ∈ s.marks
  · rw [createToggleMarkCommand_mem s name hmem url] at h
    split at h <;> simp at h
  · rw [createToggleMarkCommand_notMem s name hmem url] at h
    injection h with he
    exact ⟨he.symm, hmem⟩

lemma createSetNodeTypeCommand_error (s : Schema) (name : String)
    (lvl : Option Nat) (e : JsError)
    (h : createSetNodeTypeCommand s name lvl = .error e) :
    e = jsError (nodeNotFoundMsg name) ∧ name ∉ s.nodes := by
  by_cases hmem : name ∈ s.nodes
  · rw [createSetNodeTypeCommand_mem s name hmem lvl] at h
    split at h <;> simp at h
  · rw [createSetNodeTypeCommand_notMem s name hmem lvl] at h
    injection h with he
    exact ⟨he.symm, hmem⟩

lemma createWrapInCommand_error (s : Schema) (name : String) (e : JsError)
    (h : createWrapInCommand s name = .error e) :
    e = jsError (nodeNotFoundMsg name) ∧ name ∉ s.nodes := by
  by_cases hmem : name ∈ s.nodes
  · rw [createWrapInCommand_mem s name hmem] at h
    simp at h
  · rw [createWrapInCommand_notMem s name hmem] at h
    injection h with he
    exact ⟨he.symm, hmem⟩

lemma createListCommand_error (s : Schema) (name : String) (e : JsError)
    (h : createListCommand s name = .error e) :
    e = jsError (listNotFoundMsg name) ∧ name ∉ s.nodes := by
  by_cases hmem : name ∈ s.nodes
  · rw [createListCommand_mem s name hmem] at h
    simp at h
  · rw [createListCommand_notMem s name hmem] at h
    injection h with he
    exact ⟨he.symm, hmem⟩

lemma getCommand_not_in_values (s : Schema) (mark : String)
    (url : Option String) (h : mark ∉ EditorMenuTypes.values) :
    (MenuCommandFactory.mk s).getCommand mark url =
      .error (jsError (menuTypeNotSupportedMsg mark)) := by
  unfold MenuCommandFactory.getCommand
  rw [if_pos (by simp [h])]

/-- C1: for every action identifier in the enumerated set
`EditorMenuTypes`, `getCommand` on a schema whose mark and node tables
contain every primitive referenced by the dispatch table (strong, em,
underline, link marks; heading, blockquote, ordered_list, bullet_list
nodes) returns a command descriptor and does not throw. -/
theorem C1_every_action_resolves (s : Schema)
    (hstrong : "strong" ∈ s.marks) (hem : "em" ∈ s.marks)
    (hunderline : "underline" ∈ s.marks) (hlink : "link" ∈ s.marks)
    (hheading : "heading" ∈ s.nodes) (hblockquote : "blockquote" ∈ s.nodes)
    (holist : "ordered_list" ∈ s.nodes) (hblist : "bullet_list" ∈ s.nodes) :
    ∀ mark ∈ EditorMenuTypes.values,
      ((MenuCommandFactory.mk s).getCommand mark none).isOk = true := by
  intro mark hm
  simp only [EditorMenuTypes.values, EditorMenuTypes.Strong,
    EditorMenuTypes.Italic, EditorMenuTypes.Underline,
    EditorMenuTypes.HeaderLevel1, EditorMenuTypes.HeaderLevel2,
    EditorMenuTypes.HeaderLevel3, EditorMenuTypes.Blockquote,
    EditorMenuTypes.OrderedList, EditorMenuTypes.BulletList,
    EditorMenuTypes.Link, List.mem_cons, List.not_mem_nil, or_false] at hm
  rcases hm with rfl | rfl | rfl | rfl | rfl | rfl | rfl | rfl | rfl | rfl
  · show (createToggleMarkCommand s "strong" none).isOk = true
    rw [createToggleMarkCommand_mem s "strong" hstrong none]
    split <;> rfl
  · show (createToggleMarkCommand s "em" none).isOk = true
    rw [createToggleMarkCommand_mem s "em" hem none]
    split <;> rfl
  · show (createToggleMarkCommand s "underline" none).isOk = true
    rw [createToggleMarkCommand_mem s "underline" hunderline none]
    split <;> rfl
  · show (createSetNodeTypeCommand s "heading" (some levelMapping.one)).isOk
      = true
    rw [createSetNodeTypeCommand_mem s "heading" hheading]
    split <;> rfl
  · show (createSetNodeTypeCommand s "heading" (some levelMapping.two)).isOk
      = true
    rw [createSetNodeTypeCommand_mem s "heading" hheading]
    split <;> rfl
  · show (createSetNodeTypeCommand s "heading"
      (some levelMapping.three)).isOk = true
    rw [createSetNodeTypeCommand_mem s "heading" hheading]
    split <;> rfl
  · show (createWrapInCommand s "blockquote").isOk = true
    rw [createWrapInCommand_mem s "blockquote" hblockquote]
    rfl
  · show (createListCommand s "ordered_list").isOk = true
    rw [createListCommand_mem s "ordered_list" holist]
    rfl
  · show (createListCommand s "bullet_list").isOk = true
    rw [createListCommand_mem s "bullet_list" hblist]
    rfl
  · show (createToggleMarkCommand s "link" none).isOk = true
    rw [createToggleMarkCommand_mem s "link" hlink none]
    split <;> rfl

/-- Witness for C1 at the fully populated schema. -/
theorem C1_every_action_resolves_witness :
    ("strong" ∈ fullSchema.marks ∧ "em" ∈ fullSchema.marks ∧
     "underline" ∈ fullSchema.marks ∧ "link" ∈ fullSchema.marks ∧
     "heading" ∈ fullSchema.nodes ∧ "blockquote" ∈ fullSchema.nodes ∧
     "ordered_list" ∈ fullSchema.nodes ∧ "bullet_list" ∈ fullSchema.nodes) ∧
    (∀ mark ∈ EditorMenuTypes.values,
      ((MenuCommandFactory.mk fullSchema).getCommand mark none).isOk
        = true) :=
  ⟨by decide,
   C1_every_action_resolves fullSchema (by decide) (by decide) (by decide)
     (by decide) (by decide) (by decide) (by decide) (by decide)⟩

/-- C2 counterexample: at the concrete URL string `""`, `getCommand` for
the Link action on a schema containing the link mark returns the plain
toggle descriptor carrying no href attribute, not a descriptor whose href
attribute is the empty string. -/
theorem C2_counterexample :
    (MenuCommandFactory.mk fullSchema).getCommand EditorMenuTypes.Link
        (some "") = Except.ok (Command.toggleMark ⟨"link"⟩ none) ∧
    (Command.toggleMark (⟨"link"⟩ : MarkType) none).hrefAttr ≠ some "" :=
  ⟨rfl, by decide⟩

/-- C2 (amended): for every nonempty URL string u, `getCommand` for the
Link action on a schema containing the link mark returns a descriptor
carrying exactly u as its href attribute; with no URL argument it returns
a descriptor carrying no href attribute. -/
theorem C2_link_url_binding (s : Schema) (hlink : "link" ∈ s.marks)
    (u : String) (hu : u ≠ "") :
    (MenuCommandFactory.mk s).getCommand EditorMenuTypes.Link (some u) =
      Except.ok (Command.toggleMark ⟨"link"⟩ (some ⟨u⟩)) ∧
    (MenuCommandFactory.mk s).getCommand EditorMenuTypes.Link none =
      Except.ok (Command.toggleMark ⟨"link"⟩ none) := by
  constructor
  · show createToggleMarkCommand s "link" (some u) = _
    rw [createToggleMarkCommand_mem s "link" hlink (some u),
      if_pos
        (show ("link" == EditorMenuTypes.Link && strTruthy (some u)) = true
          by simp [EditorMenuTypes.Link, strTruthy, hu])]
    rfl
  · show createToggleMarkCommand s "link" none = _
    rw [createToggleMarkCommand_mem s "link" hlink none]
    rfl

/-- Witness for the amended C2 at a concrete nonempty URL. -/
theorem C2_link_url_binding_witness :
    ("link" ∈ fullSchema.marks ∧ "https://example.com" ≠ "") ∧
    ((MenuCommandFactory.mk fullSchema).getCommand EditorMenuTypes.Link
        (some "https://example.com") =
      Except.ok
        (Command.toggleMark ⟨"link"⟩ (some ⟨"https://example.com"⟩)) ∧
     (MenuCommandFactory.mk fullSchema).getCommand EditorMenuTypes.Link
        none = Except.ok (Command.toggleMark ⟨"link"⟩ none)) :=
  ⟨⟨by decide, by decide⟩,
   C2_link_url_binding fullSchema (by decide) "https://example.com"
     (by decide)⟩

/-- C4: each heading action identifier HeaderLevelN, on a schema
containing the heading node, yields a descriptor parameterized with the
numeric level N, for N in 1, 2, 3. -/
theorem C4_heading_levels (s : Schema) (hheading : "heading" ∈ s.nodes) :
    (MenuCommandFactory.mk s).getCommand EditorMenuTypes.HeaderLevel1 none =
      Except.ok (Command.setBlockType ⟨"heading"⟩ (some ⟨1⟩)) ∧
    (MenuCommandFactory.mk s).getCommand EditorMenuTypes.HeaderLevel2 none =
      Except.ok (Command.setBlockType ⟨"heading"⟩ (some ⟨2⟩)) ∧
    (MenuCommandFactory.mk s).getCommand EditorMenuTypes.HeaderLevel3 none =
      Except.ok (Command.setBlockType ⟨"heading"⟩ (some ⟨3⟩)) := by
  refine ⟨?_, ?_, ?_⟩
  · show createSetNodeTypeCommand s "heading" (some levelMapping.one) = _
    rw [createSetNodeTypeCommand_mem s "heading" hheading]
    rfl
  · show createSetNodeTypeCommand s "heading" (some levelMapping.two) = _
    rw [createSetNodeTypeCommand_mem s "heading" hheading]
    rfl
  · show createSetNodeTypeCommand s "heading" (some levelMapping.three) = _
    rw [createSetNodeTypeCommand_mem s "heading" hheading]
    rfl

/-- Witness for C4 at the fully populated schema. -/
theorem C4_heading_levels_witness :
    ("heading" ∈ fullSchema.nodes) ∧
    ((MenuCommandFactory.mk fullSchema).getCommand
        EditorMenuTypes.HeaderLevel1 none =
      Except.ok (Command.setBlockType ⟨"heading"⟩ (some ⟨1⟩)) ∧
     (MenuCommandFactory.mk fullSchema).getCommand
        EditorMenuTypes.HeaderLevel2 none =
      Except.ok (Command.setBlockType ⟨"heading"⟩ (some ⟨2⟩)) ∧
     (MenuCommandFactory.mk fullSchema).getCommand
        EditorMenuTypes.HeaderLevel3 none =
      Except.ok (Command.setBlockType ⟨"heading"⟩ (some ⟨3⟩))) :=
  ⟨by decide, C4_heading_levels fullSchema (by decide)⟩

/-- C5: `getCommand` for the Strong action on a schema whose mark table
lacks the strong primitive signals the capability-unavailable fault kind
and not the unsupported-action fault kind. -/
theorem C5_missing_strong_capability (s : Schema)
    (h : "strong" ∉ s.marks) :
    (MenuCommandFactory.mk s).getCommand EditorMenuTypes.Strong none =
      Except.error (jsError (markNotFoundMsg "strong")) ∧
    classifyFault (jsError (markNotFoundMsg "strong")) =
      some FaultKind.capabilityMissing ∧
    classifyFault (jsError (markNotFoundMsg "strong")) ≠
      some FaultKind.unsupportedAction := by
  refine ⟨?_, by decide, by decide⟩
  show createToggleMarkCommand s "strong" none = _
  exact createToggleMarkCommand_notMem s "strong" h none

/-- Witness for C5 at the empty schema. -/
theorem C5_missing_strong_capability_witness :
    ("strong" ∉ emptySchema.marks) ∧
    ((MenuCommandFactory.mk emptySchema).getCommand EditorMenuTypes.Strong
        none = Except.error (jsError (markNotFoundMsg "strong")) ∧
     classifyFault (jsError (markNotFoundMsg "strong")) =
       some FaultKind.capabilityMissing ∧
     classifyFault (jsError (markNotFoundMsg "strong")) ≠
       some FaultKind.unsupportedAction) :=
  ⟨by decide, C5_missing_strong_capability emptySchema (by decide)⟩

/-- C3 counterexample: at the concrete inputs below, two distinct fault
kinds (unsupported action, and required primitive absent) are both
reported as values of the one generic error class `"Error"`; the code
does not use three distinct failure value kinds, only one generic error
whose message text varies. -/
theorem C3_counterexample :
    (MenuCommandFactory.mk emptySchema).getCommand "bogus" none =
      Except.error (jsError (menuTypeNotSupportedMsg "bogus")) ∧
    (MenuCommandFactory.mk emptySchema).getCommand EditorMenuTypes.Strong
        none = Except.error (jsError (markNotFoundMsg "strong")) ∧
    (jsError (menuTypeNotSupportedMsg "bogus")).name = "Error" ∧
    (jsError (markNotFoundMsg "strong")).name = "Error" :=
  ⟨rfl, rfl, rfl, rfl⟩

/-- C3 (amended): all fault kinds are reported through the single generic
`Error` class, distinguished only by message text; the message templates
of the three kinds are pairwise disjoint, so a caller can decide per kind
from the error value alone (`classifyFault`), and an error raised by
`getCommand` classifies as unsupported-action exactly when the identifier
is outside the enumeration, otherwise as capability-missing. -/
theorem C3_fault_kinds_share_class_but_distinguishable (s : Schema)
    (mark : String) (url : Option String) (e : JsError)
    (h : (MenuCommandFactory.mk s).getCommand mark url = Except.error e) :
    e.name = "Error" ∧
    (classifyFault e = some FaultKind.unsupportedAction ∨
     classifyFault e = some FaultKind.capabilityMissing) ∧
    (classifyFault e = some FaultKind.unsupportedAction ↔
      mark ∉ EditorMenuTypes.values) ∧
    (∀ m : String,
      classifyFault (jsError (menuTypeNotSupportedMsg m)) =
        some FaultKind.unsupportedAction ∧
      classifyFault (jsError (markNotSupportedMsg m)) =
        some FaultKind.missingDispatch ∧
      classifyFault (jsError (markNotFoundMsg m)) =
        some FaultKind.capabilityMissing ∧
      classifyFault (jsError (nodeNotFoundMsg m)) =
        some FaultKind.capabilityMissing ∧
      classifyFault (jsError (listNotFoundMsg m)) =
        some FaultKind.capabilityMissing) := by
  have templates : ∀ m : String,
      classifyFault (jsError (menuTypeNotSupportedMsg m)) =
        some FaultKind.unsupportedAction ∧
      classifyFault (jsError (markNotSupportedMsg m)) =
        some FaultKind.missingDispatch ∧
      classifyFault (jsError (markNotFoundMsg m)) =
        some FaultKind.capabilityMissing ∧
      classifyFault (jsError (nodeNotFoundMsg m)) =
        some FaultKind.capabilityMissing ∧
      classifyFault (jsError (listNotFoundMsg m)) =
        some FaultKind.capabilityMissing :=
    fun m => ⟨classify_menuTypeNotSupported m, classify_markNotSupported m,
      classify_markNotFound m, classify_nodeNotFound m,
      classify_listNotFound m⟩
  by_cases hv : mark ∈ EditorMenuTypes.values
  · simp only [EditorMenuTypes.values, EditorMenuTypes.Strong,
      EditorMenuTypes.Italic, EditorMenuTypes.Underline,
      EditorMenuTypes.HeaderLevel1, EditorMenuTypes.HeaderLevel2,
      EditorMenuTypes.HeaderLevel3, EditorMenuTypes.Blockquote,
      EditorMenuTypes.OrderedList, EditorMenuTypes.BulletList,
      EditorMenuTypes.Link, List.mem_cons, List.not_mem_nil, or_false]
      at hv
    rcases hv with rfl | rfl | rfl | rfl | rfl | rfl | rfl | rfl | rfl | rfl
    · have h' : createToggleMarkCommand s "strong" url = Except.error e := h
      obtain ⟨rfl, -⟩ := createToggleMarkCommand_error s "strong" url e h'
      exact ⟨rfl, Or.inr (by decide), by decide, templates⟩
    · have h' : createToggleMarkCommand s "em" url = Except.error e := h
      obtain ⟨rfl, -⟩ := createToggleMarkCommand_error s "em" url e h'
      exact ⟨rfl, Or.inr (by decide), by decide, templates⟩
    · have h' : createToggleMarkCommand s "underline" url
          = Except.error e := h
      obtain ⟨rfl, -⟩ :=
        createToggleMarkCommand_error s "underline" url e h'
      exact ⟨rfl, Or.inr (by decide), by decide, templates⟩
    · have h' : createSetNodeTypeCommand s "heading"
          (some levelMapping.one) = Except.error e := h
      obtain ⟨rfl, -⟩ :=
        createSetNodeTypeCommand_error s "heading" (some levelMapping.one)
          e h'
      exact ⟨rfl, Or.inr (by decide), by decide, templates⟩
    · have h' : createSetNodeTypeCommand s "heading"
          (some levelMapping.two) = Except.error e := h
      obtain ⟨rfl, -⟩ :=
        createSetNodeTypeCommand_error s "heading" (some levelMapping.two)
          e h'
      exact ⟨rfl, Or.inr (by decide), by decide, templates⟩
    · have h' : createSetNodeTypeCommand s "heading"
          (some levelMapping.three) = Except.error e := h
      obtain ⟨rfl, -⟩ :=
        createSetNodeTypeCommand_error s "heading"
          (some levelMapping.three) e h'
      exact ⟨rfl, Or.inr (by decide), by decide, templates⟩
    · have h' : createWrapInCommand s "blockquote" = Except.error e := h
      obtain ⟨rfl, -⟩ := createWrapInCommand_error s "blockquote" e h'
      exact ⟨rfl, Or.inr (by decide), by decide, templates⟩
    · have h' : createListCommand s "ordered_list" = Except.error e := h
      obtain ⟨rfl, -⟩ := createListCommand_error s "ordered_list" e h'
      exact ⟨rfl, Or.inr (by decide), by decide, templates⟩
    · have h' : createListCommand s "bullet_list" = Except.error e := h
      obtain ⟨rfl, -⟩ := createListCommand_error s "bullet_list" e h'
      exact ⟨rfl, Or.inr (by decide), by decide, templates⟩
    · have h' : createToggleMarkCommand s "link" url = Except.error e := h
      obtain ⟨rfl, -⟩ := createToggleMarkCommand_error s "link" url e h'
      exact ⟨rfl, Or.inr (by decide), by decide, templates⟩
  · rw [getCommand_not_in_values s mark url hv] at h
    injection h with he
    subst he
    refine ⟨rfl, Or.inl (classify_menuTypeNotSupported mark), ?_,
      templates⟩
    rw [classify_menuTypeNotSupported]
    simp [hv]

/-- Witness for the amended C3 at a concrete failing call. -/
theorem C3_fault_kinds_witness :
    ((MenuCommandFactory.mk emptySchema).getCommand EditorMenuTypes.Strong
        none = Except.error (jsError (markNotFoundMsg "strong"))) ∧
    ((jsError (markNotFoundMsg "strong")).name = "Error" ∧
     (classifyFault (jsError (markNotFoundMsg "strong")) =
        some FaultKind.unsupportedAction ∨
      classifyFault (jsError (markNotFoundMsg "strong")) =
        some FaultKind.capabilityMissing) ∧
     (classifyFault (jsError (markNotFoundMsg "strong")) =
        some FaultKind.unsupportedAction ↔
       EditorMenuTypes.Strong ∉ EditorMenuTypes.values) ∧
     (∀ m : String,
       classifyFault (jsError (menuTypeNotSupportedMsg m)) =
         some FaultKind.unsupportedAction ∧
       classifyFault (jsError (markNotSupportedMsg m)) =
         some FaultKind.missingDispatch ∧
       classifyFault (jsError (markNotFoundMsg m)) =
         some FaultKind.capabilityMissing ∧
       classifyFault (jsError (nodeNotFoundMsg m)) =
         some FaultKind.capabilityMissing ∧
       classifyFault (jsError (listNotFoundMsg m)) =
         some FaultKind.capabilityMissing)) :=
  ⟨rfl,
   C3_fault_kinds_share_class_but_distinguishable emptySchema
     EditorMenuTypes.Strong none (jsError (markNotFoundMsg "strong")) rfl⟩

/-- C6: for every identifier outside the enumerated set, `getCommand`
signals the unsupported-action fault kind — regardless of the schema and
the URL argument — and never any other fault kind. -/
theorem C6_unsupported_action (s : Schema) (mark : String)
    (url : Option String) (h : mark ∉ EditorMenuTypes.values) :
    (MenuCommandFactory.mk s).getCommand mark url =
      Except.error (jsError (menuTypeNotSupportedMsg mark)) ∧
    classifyFault (jsError (menuTypeNotSupportedMsg mark)) =
      some FaultKind.unsupportedAction :=
  ⟨getCommand_not_in_values s mark url h,
   classify_menuTypeNotSupported mark⟩

/-- Witness for C6 at a concrete unknown identifier, on the fully
populated schema. -/
theorem C6_unsupported_action_witness :
    ("bogus" ∉ EditorMenuTypes.values) ∧
    ((MenuCommandFactory.mk fullSchema).getCommand "bogus" none =
       Except.error (jsError (menuTypeNotSupportedMsg "bogus")) ∧
     classifyFault (jsError (menuTypeNotSupportedMsg "bogus")) =
       some FaultKind.unsupportedAction) :=
  ⟨by decide, C6_unsupported_action fullSchema "bogus" none (by decide)⟩

/-- C7: `buildKeymap` on a schema containing the required primitives
returns exactly the five bindings Mod-B, Mod-I, Mod-Shift-1, Mod-Shift-2
and Mod-Shift-3, each bound to the descriptor `getCommand` returns for
the corresponding action. -/
theorem C7_buildKeymap_five_bindings (s : Schema)
    (hstrong : "strong" ∈ s.marks) (hem : "em" ∈ s.marks)
    (hheading : "heading" ∈ s.nodes) :
    (MenuCommandFactory.mk s).buildKeymap =
      Except.ok
        [("Mod-B", Command.toggleMark ⟨"strong"⟩ none),
         ("Mod-I", Command.toggleMark ⟨"em"⟩ none),
         ("Mod-Shift-1", Command.setBlockType ⟨"heading"⟩ (some ⟨1⟩)),
         ("Mod-Shift-2", Command.setBlockType ⟨"heading"⟩ (some ⟨2⟩)),
         ("Mod-Shift-3", Command.setBlockType ⟨"heading"⟩ (some ⟨3⟩))] ∧
    (MenuCommandFactory.mk s).getCommand EditorMenuTypes.Strong none =
      Except.ok (Command.toggleMark ⟨"strong"⟩ none) ∧
    (MenuCommandFactory.mk s).getCommand EditorMenuTypes.Italic none =
      Except.ok (Command.toggleMark ⟨"em"⟩ none) ∧
    (MenuCommandFactory.mk s).getCommand EditorMenuTypes.HeaderLevel1 none =
      Except.ok (Command.setBlockType ⟨"heading"⟩ (some ⟨1⟩)) ∧
    (MenuCommandFactory.mk s).getCommand EditorMenuTypes.HeaderLevel2 none =
      Except.ok (Command.setBlockType ⟨"heading"⟩ (some ⟨2⟩)) ∧
    (MenuCommandFactory.mk s).getCommand EditorMenuTypes.HeaderLevel3 none =
      Except.ok (Command.setBlockType ⟨"heading"⟩ (some ⟨3⟩)) := by
  have hb : (MenuCommandFactory.mk s).getCommand EditorMenuTypes.Strong
      none = Except.ok (Command.toggleMark ⟨"strong"⟩ none) := by
    show createToggleMarkCommand s "strong" none = _
    rw [createToggleMarkCommand_mem s "strong" hstrong none]
    rfl
  have hi : (MenuCommandFactory.mk s).getCommand EditorMenuTypes.Italic
      none = Except.ok (Command.toggleMark ⟨"em"⟩ none) := by
    show createToggleMarkCommand s "em" none = _
    rw [createToggleMarkCommand_mem s "em" hem none]
    rfl
  have h1 : (MenuCommandFactory.mk s).getCommand
      EditorMenuTypes.HeaderLevel1 none =
      Except.ok (Command.setBlockType ⟨"heading"⟩ (some ⟨1⟩)) := by
    show createSetNodeTypeCommand s "heading" (some levelMapping.one) = _
    rw [createSetNodeTypeCommand_mem s "heading" hheading]
    rfl
  have h2 : (MenuCommandFactory.mk s).getCommand
      EditorMenuTypes.HeaderLevel2 none =
      Except.ok (Command.setBlockType ⟨"heading"⟩ (some ⟨2⟩)) := by
    show createSetNodeTypeCommand s "heading" (some levelMapping.two) = _
    rw [createSetNodeTypeCommand_mem s "heading" hheading]
    rfl
  have h3 : (MenuCommandFactory.mk s).getCommand
      EditorMenuTypes.HeaderLevel3 none =
      Except.ok (Command.setBlockType ⟨"heading"⟩ (some ⟨3⟩)) := by
    show createSetNodeTypeCommand s "heading" (some levelMapping.three) = _
    rw [createSetNodeTypeCommand_mem s "heading" hheading]
    rfl
  refine ⟨?_, hb, hi, h1, h2, h3⟩
  unfold MenuCommandFactory.buildKeymap
  rw [hb, hi, h1, h2, h3]
  rfl

/-- Witness for C7 at the fully populated schema. -/
theorem C7_buildKeymap_five_bindings_witness :
    ("strong" ∈ fullSchema.marks ∧ "em" ∈ fullSchema.marks ∧
     "heading" ∈ fullSchema.nodes) ∧
    (MenuCommandFactory.mk fullSchema).buildKeymap =
      Except.ok
        [("Mod-B", Command.toggleMark ⟨"strong"⟩ none),
         ("Mod-I", Command.toggleMark ⟨"em"⟩ none),
         ("Mod-Shift-1", Command.setBlockType ⟨"heading"⟩ (some ⟨1⟩)),
         ("Mod-Shift-2", Command.setBlockType ⟨"heading"⟩ (some ⟨2⟩)),
         ("Mod-Shift-3", Command.setBlockType ⟨"heading"⟩ (some ⟨3⟩))] :=
  ⟨by decide,
   (C7_buildKeymap_five_bindings fullSchema (by decide) (by decide)
     (by decide)).1⟩

/-- C8: if any of the five shortcut actions cannot be resolved against the
schema, `buildKeymap` fails with the very error value `getCommand` signals
for one of the failing actions, and produces no binding list at all. -/
theorem C8_buildKeymap_fails_whole (s : Schema)
    (h : ([EditorMenuTypes.Strong, EditorMenuTypes.Italic,
           EditorMenuTypes.HeaderLevel1, EditorMenuTypes.HeaderLevel2,
           EditorMenuTypes.HeaderLevel3].any
      (fun m => !((MenuCommandFactory.mk s).getCommand m none).isOk))
      = true) :
    ∃ e, (MenuCommandFactory.mk s).buildKeymap = Except.error e ∧
      ∃ m ∈ [EditorMenuTypes.Strong, EditorMenuTypes.Italic,
             EditorMenuTypes.HeaderLevel1, EditorMenuTypes.HeaderLevel2,
             EditorMenuTypes.HeaderLevel3],
        (MenuCommandFactory.mk s).getCommand m none = Except.error e := by
  cases hb : (MenuCommandFactory.mk s).getCommand EditorMenuTypes.Strong
      none with
  | error e =>
    refine ⟨e, ?_, EditorMenuTypes.Strong, by simp, hb⟩
    unfold MenuCommandFactory.buildKeymap
    rw [hb]
    rfl
  | ok b =>
  cases hi : (MenuCommandFactory.mk s).getCommand EditorMenuTypes.Italic
      none with
  | error e =>
    refine ⟨e, ?_, EditorMenuTypes.Italic, by simp, hi⟩
    unfold MenuCommandFactory.buildKeymap
    rw [hb, hi]
    rfl
  | ok i =>
  cases h1 : (MenuCommandFactory.mk s).getCommand
      EditorMenuTypes.HeaderLevel1 none with
  | error e =>
    refine ⟨e, ?_, EditorMenuTypes.HeaderLevel1, by simp, h1⟩
    unfold MenuCommandFactory.buildKeymap
    rw [hb, hi, h1]
    rfl
  | ok c1 =>
  cases h2 : (MenuCommandFactory.mk s).getCommand
      EditorMenuTypes.HeaderLevel2 none with
  | error e =>
    refine ⟨e, ?_, EditorMenuTypes.HeaderLevel2, by simp, h2⟩
    unfold MenuCommandFactory.buildKeymap
    rw [hb, hi, h1, h2]
    rfl
  | ok c2 =>
  cases h3 : (MenuCommandFactory.mk s).getCommand
      EditorMenuTypes.HeaderLevel3 none with
  | error e =>
    refine ⟨e, ?_, EditorMenuTypes.HeaderLevel3, by simp, h3⟩
    unfold MenuCommandFactory.buildKeymap
    rw [hb, hi, h1, h2, h3]
    rfl
  | ok c3 =>
    exfalso
    simp [hb, hi, h1, h2, h3, Except.isOk, Except.toBool] at h

/-- Witness for C8 at the empty schema, where the Strong shortcut cannot
be resolved. -/
theorem C8_buildKeymap_fails_whole_witness :
    (([EditorMenuTypes.Strong, EditorMenuTypes.Italic,
       EditorMenuTypes.HeaderLevel1, EditorMenuTypes.HeaderLevel2,
       EditorMenuTypes.HeaderLevel3].any
      (fun m =>
        !((MenuCommandFactory.mk emptySchema).getCommand m none).isOk))
      = true) ∧
    (∃ e, (MenuCommandFactory.mk emptySchema).buildKeymap =
        Except.error e ∧
      ∃ m ∈ [EditorMenuTypes.Strong, EditorMenuTypes.Italic,
             EditorMenuTypes.HeaderLevel1, EditorMenuTypes.HeaderLevel2,
             EditorMenuTypes.HeaderLevel3],
        (MenuCommandFactory.mk emptySchema).getCommand m none =
          Except.error e) :=
  ⟨by decide, C8_buildKeymap_fails_whole emptySchema (by decide)⟩

/-- C9: `getCommand` is deterministic and effect free. In the
state-passing rendering of the method call (`getCommandSt`), the source
body reads `this.schema` and performs no assignment, so a call leaves the
factory - and with it the schema handed to the constructor - unchanged,
and a second call with identical arguments returns a descriptor equal to
the first. -/
theorem C9_getCommand_pure (f : MenuCommandFactory) (mark : String)
    (url : Option String) :
    (f.getCommandSt mark url).2 = f ∧
    (f.getCommandSt mark url).2.schema = f.schema ∧
    ((f.getCommandSt mark url).2.getCommandSt mark url).1 =
      (f.getCommandSt mark url).1 ∧
    (∀ g : MenuCommandFactory, g.schema = f.schema →
      g.getCommand mark url = f.getCommand mark url) := by
  refine ⟨rfl, rfl, rfl, ?_⟩
  intro g hg
  unfold MenuCommandFactory.getCommand
  rw [hg]

/-- C10: for the Link action an empty-string URL behaves exactly like an
absent URL: the returned descriptor is the plain toggle carrying no href
attribute. -/
theorem C10_empty_url_like_absent (s : Schema) (hlink : "link" ∈ s.marks) :
    (MenuCommandFactory.mk s).getCommand EditorMenuTypes.Link (some "") =
      Except.ok (Command.toggleMark ⟨"link"⟩ none) ∧
    (MenuCommandFactory.mk s).getCommand EditorMenuTypes.Link (some "") =
      (MenuCommandFactory.mk s).getCommand EditorMenuTypes.Link none ∧
    (Command.toggleMark (⟨"link"⟩ : MarkType) none).hrefAttr = none := by
  refine ⟨?_, ?_, rfl⟩
  · show createToggleMarkCommand s "link" (some "") = _
    rw [createToggleMarkCommand_mem s "link" hlink (some "")]
    rfl
  · show createToggleMarkCommand s "link" (some "")
      = createToggleMarkCommand s "link" none
    rw [createToggleMarkCommand_mem s "link" hlink (some ""),
      createToggleMarkCommand_mem s "link" hlink none]
    rfl

/-- Witness for C10 at the fully populated schema. -/
theorem C10_empty_url_like_absent_witness :
    ("link" ∈ fullSchema.marks) ∧
    ((MenuCommandFactory.mk fullSchema).getCommand EditorMenuTypes.Link
        (some "") = Except.ok (Command.toggleMark ⟨"link"⟩ none) ∧
     (MenuCommandFactory.mk fullSchema).getCommand EditorMenuTypes.Link
        (some "") =
       (MenuCommandFactory.mk fullSchema).getCommand EditorMenuTypes.Link
         none ∧
     (Command.toggleMark (⟨"link"⟩ : MarkType) none).hrefAttr = none) :=
  ⟨by decide, C10_empty_url_like_absent fullSchema (by decide)⟩

/-- Witness for C9 at a concrete factory and call. -/
theorem C9_getCommand_pure_witness :
    ((MenuCommandFactory.mk fullSchema).getCommandSt "strong" none).2 =
      MenuCommandFactory.mk fullSchema ∧
    ((MenuCommandFactory.mk fullSchema).getCommandSt "strong"
        none).2.schema = (MenuCommandFactory.mk fullSchema).schema ∧
    (((MenuCommandFactory.mk fullSchema).getCommandSt "strong"
          none).2.getCommandSt "strong" none).1 =
      ((MenuCommandFactory.mk fullSchema).getCommandSt "strong" none).1 ∧
    (∀ g : MenuCommandFactory,
      g.schema = (MenuCommandFactory.mk fullSchema).schema →
      g.getCommand "strong" none =
        (MenuCommandFactory.mk fullSchema).getCommand "strong" none) :=
  C9_getCommand_pure (MenuCommandFactory.mk fullSchema) "strong" none
